import Mathlib

/-!
# Camera viewfinder script (`script.js`): device enumeration, stream negotiation, mirroring

A shallow embedding of the camera logic of `script.js`.

* The module-level variables of the script (`stream`, `currentFacingMode`,
  `availableCameras`, `currentCameraIndex`) and the parts of the page the camera logic
  writes (`videoElement.srcObject`, `videoElement.style.transform`, the status overlay,
  the `camera-active` class, `switchCameraBtn.disabled`) are fields of `State`.
* The browser is a `Platform`: the answer of `enumerateDevices()` to its `n`-th call, the
  answer of `getUserMedia(constraints)` to the `n`-th stream request, and
  `String.prototype.toLowerCase`.  The state records every stream request made
  (`requests`), every track on which `stop()` was called (`stopped`), the number of
  enumeration calls and every error handed to `handleCameraError` (`reported`).
* A JavaScript exception is a value of `JsError`; a function that can throw returns the
  state reached together with the exception, if any.
* `await` points are sequential steps: calls do not overlap.
-/

namespace Below

/-! ## Data model -/

/-- One `MediaDeviceInfo` of the list resolved by `enumerateDevices()`. -/
structure MediaDeviceInfo where
  deviceId : String
  kind : String
  label : String
deriving DecidableEq, Repr

/-- A thrown JavaScript error: its `name` and its `message` (the empty string stands for
a missing message, both are falsy). -/
structure JsError where
  name : String
  message : String
deriving DecidableEq, Repr

/-- What the platform decides about one track of a stream it hands out: the track kind
(`'video'` or `'audio'`) and `getSettings().facingMode` (`none` when the setting is
absent). -/
structure TrackInfo where
  kind : String
  facingMode : Option String
deriving DecidableEq, Repr

/-- A `MediaStreamTrack` object.  `id` is the identity of the object: the number of the
stream request that created it and its position in that stream. -/
structure MediaStreamTrack where
  id : Nat × Nat
  kind : String
  facingMode : Option String
deriving DecidableEq, Repr

/-- A `MediaStream` object: its tracks, in order. -/
structure MediaStream where
  tracks : List MediaStreamTrack
deriving DecidableEq, Repr

/-- The `video` member of a constraints object when it is an object literal: an optional
`deviceId: {exact: ...}`, an optional `facingMode`, optional `width: {ideal: ...}` and
`height: {ideal: ...}`.  The empty object `{}` has all four absent. -/
structure VideoConstraints where
  deviceId : Option String
  facingMode : Option String
  width : Option Nat
  height : Option Nat
deriving DecidableEq, Repr

/-- The `video` member of a constraints object: a boolean or an object literal. -/
inductive VideoSpec where
  | bool (b : Bool)
  | obj (c : VideoConstraints)
deriving DecidableEq, Repr

/-- The argument of `getUserMedia`. -/
structure MediaStreamConstraints where
  video : VideoSpec
  audio : Bool
deriving DecidableEq, Repr

/-- The status overlay after `showStatus`: the arguments it was called with and the
markup it wrote into `statusOverlay.innerHTML`. -/
structure StatusShown where
  message : String
  showRetry : Bool
  innerHTML : String
deriving DecidableEq, Repr

/-- The browser, as far as the camera logic can observe it. -/
structure Platform where
  /-- Outcome of the `n`-th call (from 0) of `navigator.mediaDevices.enumerateDevices()`. -/
  enumerateDevices : Nat → Except JsError (List MediaDeviceInfo)
  /-- Outcome of the `n`-th stream request (from 0), made with the given constraints: the
  tracks of the stream handed out, or the error the promise rejects with. -/
  getUserMedia : Nat → MediaStreamConstraints → Except JsError (List TrackInfo)
  /-- The host function `String.prototype.toLowerCase`. -/
  toLowerCase : String → String

/-- The script's module-level variables, the page properties the camera logic writes, and
the record of what was asked of the platform. -/
structure State where
  stream : Option MediaStream
  currentFacingMode : String
  availableCameras : List MediaDeviceInfo
  currentCameraIndex : Nat
  srcObject : Option MediaStream
  transform : String
  status : Option StatusShown
  statusHidden : Bool
  cameraActive : Bool
  switchDisabled : Bool
  stopped : List (Nat × Nat)
  requests : List MediaStreamConstraints
  enumCalls : Nat
  reported : List JsError
deriving DecidableEq, Repr

/-- The state when the script has been loaded (lines 14-19): no stream, facing mode
`'user'`, no cameras, index 0; nothing asked of the platform yet. -/
def State.initial : State :=
  { stream := none, currentFacingMode := "user", availableCameras := [],
    currentCameraIndex := 0, srcObject := none, transform := "", status := none,
    statusHidden := false, cameraActive := false, switchDisabled := false,
    stopped := [], requests := [], enumCalls := 0, reported := [] }

/-- The stream object created for the `n`-th stream request from the tracks the platform
hands out; each track object is new. -/
def mkStream (n : Nat) (infos : List TrackInfo) : MediaStream :=
  { tracks := infos.enum.map (fun p => { id := (n, p.1), kind := p.2.kind,
                                          facingMode := p.2.facingMode }) }

/-- The method `stream.getTracks()`. -/
def MediaStream.getTracks (st : MediaStream) : List MediaStreamTrack := st.tracks

/-- The method `stream.getVideoTracks()`. -/
def MediaStream.getVideoTracks (st : MediaStream) : List MediaStreamTrack :=
  st.tracks.filter (fun t => t.kind = "video")

/-- JavaScript truthiness of an optional string: present and non-empty. -/
def truthy : Option String → Bool
  | none => false
  | some v => decide (v ≠ "")

/-- The error a property read on `undefined` throws. -/
def typeError (msg : String) : JsError := { name := "TypeError", message := msg }

/-! ## Device enumeration (lines 42-65) -/

/-- The method `s.includes(sub)`: `sub` occurs in `s` as a contiguous substring. -/
def includes (s sub : String) : Bool :=
  s.data.tails.any (fun t => sub.data.isPrefixOf t)

/-- The test of lines 49-52 and 273-278 on a label: its lower-cased text includes
`'front'`, `'user'` or `'facing'`. -/
def isFrontLabel (P : Platform) (label : String) : Bool :=
  let l := P.toLowerCase label
  includes l "front" || includes l "user" || includes l "facing"

/-- The comparator of lines 48-57. -/
def compareCameras (P : Platform) (a b : MediaDeviceInfo) : Int :=
  let aIsFront := isFrontLabel P a.label
  let bIsFront := isFrontLabel P b.label
  if aIsFront && !bIsFront then -1
  else if !aIsFront && bIsFront then 1
  else 0

/-- Insert `a`, which came before every element of the list in the input, into a sorted
list: before the first element it does not have to follow. -/
def insertByCompare {α : Type} (cmp : α → α → Int) (a : α) : List α → List α
  | [] => [a]
  | b :: l => if cmp a b ≤ 0 then a :: b :: l else b :: insertByCompare cmp a l

/-- The method `Array.prototype.sort(cmp)`, which is stable: elements that compare equal
keep their input order.  Computed as a stable insertion sort. -/
def arraySort {α : Type} (cmp : α → α → Int) : List α → List α
  | [] => []
  | a :: l => insertByCompare cmp a (arraySort cmp l)

/-- The function `enumerateCameras` (lines 42-65): the new state and the returned boolean.
A rejected `enumerateDevices()` is caught: the list is left as it was and the result is
`false`. -/
def enumerateCameras (P : Platform) (s : State) : State × Bool :=
  match P.enumerateDevices s.enumCalls with
  | .error _ => ({ s with enumCalls := s.enumCalls + 1 }, false)
  | .ok devices =>
    let cams := arraySort (compareCameras P) (devices.filter (fun d => d.kind = "videoinput"))
    ({ s with availableCameras := cams, enumCalls := s.enumCalls + 1 },
      decide (cams.length > 0))

/-! ## Status overlay and error reporting (lines 390-422) -/

/-- The replacement `message.replace(/\n/g, '<br>')` on the characters of a message. -/
def replaceNewlines : List Char → List Char
  | [] => []
  | c :: cs => if c = '\n' then '<' :: 'b' :: 'r' :: '>' :: replaceNewlines cs
               else c :: replaceNewlines cs

/-- The function `showStatus` (lines 390-395). -/
def showStatus (message : String) (showRetry : Bool) (s : State) : State :=
  let retryBtn := if showRetry then
    "<button class=\"retry-btn\" onclick=\"location.reload()\">Retry</button>" else ""
  let html := "<div class=\"status-content\"><p>" ++ String.mk (replaceNewlines message.data)
    ++ "</p>" ++ retryBtn ++ "</div>"
  { s with status := some { message := message, showRetry := showRetry, innerHTML := html },
           statusHidden := false, cameraActive := false }

/-- The function `hideStatus` (lines 397-400). -/
def hideStatus (s : State) : State :=
  { s with statusHidden := true, cameraActive := true }

/-- The message and the retry flag `handleCameraError` computes for an error
(lines 403-419). -/
def cameraErrorReport (error : JsError) : String × Bool :=
  if error.name = "NotAllowedError" ∨ error.name = "PermissionDeniedError" then
    ("Camera permission denied.\nPlease allow camera access in your browser settings.", true)
  else if error.name = "NotFoundError" ∨ error.name = "DevicesNotFoundError" then
    ("No camera found on this device.", false)
  else if error.name = "NotReadableError" ∨ error.name = "TrackStartError" then
    ("Camera is already in use.\nPlease close other apps using the camera.", true)
  else if error.name = "NotSupportedError" then
    ("Camera not supported.\nPlease use a modern browser.", false)
  else
    ("Unable to access camera.\n" ++
      (if error.message ≠ "" then error.message
       else "Please check your browser settings and try again."), true)

/-- The function `handleCameraError` (lines 402-422). -/
def handleCameraError (error : JsError) (s : State) : State :=
  let r := cameraErrorReport error
  showStatus r.1 r.2 { s with reported := s.reported ++ [error] }

/-! ## Releasing a stream (lines 78-80, 200-211, 231-234) -/

/-- The statement `stream.getTracks().forEach(track => track.stop())`. -/
def stopTracks (st : MediaStream) (s : State) : State :=
  { s with stopped := s.stopped ++ st.getTracks.map (fun t => t.id) }

/-- The function `stopCamera` (lines 200-211). -/
def stopCamera (s : State) : State :=
  let s1 := match s.stream with
    | some st => { stopTracks st s with stream := none }
    | none => s
  showStatus "Camera stopped" false { s1 with srcObject := none, cameraActive := false }

/-! ## Mirroring (lines 256-293) -/

/-- Lines 257-268: `isFrontCamera` after the look at the active track. -/
def mirrorFromTrack (s : State) : Bool :=
  match s.stream with
  | some st =>
    match st.getVideoTracks with
    | track :: _ =>
      if track.facingMode = some "user" then true
      else if track.facingMode = some "environment" then false
      else false
    | [] => false
  | none => false

/-- Lines 270-280: `isFrontCamera` after the look at the selected camera's label.  Reading
`camera.label` when `availableCameras[currentCameraIndex]` is `undefined`, and calling
`getSettings()` when `stream.getVideoTracks()[0]` is `undefined`, throw a `TypeError`. -/
def mirrorFromLabel (P : Platform) (s : State) (isFrontCamera : Bool) : Except JsError Bool :=
  if s.availableCameras.length > 0 then
    match s.stream with
    | some st =>
      match s.availableCameras[s.currentCameraIndex]? with
      | none => .error (typeError "Cannot read properties of undefined (reading 'label')")
      | some camera =>
        match st.getVideoTracks with
        | [] => .error (typeError "Cannot read properties of undefined (reading 'getSettings')")
        | track :: _ =>
          if !truthy track.facingMode then .ok (isFrontLabel P camera.label)
          else .ok isFrontCamera
    | none => .ok isFrontCamera
  else .ok isFrontCamera

/-- Lines 282-285: the final fallback to `currentFacingMode`. -/
def mirrorFallback (s : State) (isFrontCamera : Bool) : Bool :=
  match s.stream with
  | none => decide (s.currentFacingMode = "user")
  | some st =>
    match st.getVideoTracks with
    | [] => decide (s.currentFacingMode = "user")
    | _ :: _ => isFrontCamera

/-- The decision of `updateVideoMirroring`: the final value of `isFrontCamera`
(`true` is "mirror"), or the exception thrown on the way. -/
def mirrorDecision (P : Platform) (s : State) : Except JsError Bool :=
  match mirrorFromLabel P s (mirrorFromTrack s) with
  | .error e => .error e
  | .ok b => .ok (mirrorFallback s b)

/-- The function `updateVideoMirroring` (lines 256-293): the state with the transform
applied, or the exception thrown before anything was written. -/
def updateVideoMirroring (P : Platform) (s : State) : Except JsError State :=
  match mirrorDecision P s with
  | .error e => .error e
  | .ok isFrontCamera =>
    .ok { s with transform := if isFrontCamera then "scaleX(-1)" else "scaleX(1)" }

/-! ## Stream negotiation (lines 75-197) -/

/-- The test of lines 138 and 181 on an error's name. -/
def isConstraintError (error : JsError) : Bool :=
  decide (error.name = "OverconstrainedError" ∨ error.name = "ConstraintNotSatisfiedError")

/-- Lines 77-85: stop the tracks of the stream held (the variable `stream` keeps it), then
enumerate when no camera is known. -/
def prepare (P : Platform) (s : State) : State :=
  let s1 := match s.stream with
    | some st => stopTracks st s
    | none => s
  if s1.availableCameras.length = 0 then (enumerateCameras P s1).1 else s1

/-- Lines 88-95: the device constraint.  Reading `.deviceId` of
`availableCameras[currentCameraIndex]` throws a `TypeError` when that entry is
`undefined`. -/
def deviceConstraint (deviceId : Option String) (s : State) : Except JsError VideoConstraints :=
  if truthy deviceId then
    .ok { deviceId := deviceId, facingMode := none, width := none, height := none }
  else if s.availableCameras.length > 0 then
    match s.availableCameras[s.currentCameraIndex]? with
    | some camera =>
      .ok { deviceId := some camera.deviceId, facingMode := none, width := none, height := none }
    | none => .error (typeError "Cannot read properties of undefined (reading 'deviceId')")
  else
    .ok { deviceId := none, facingMode := some s.currentFacingMode, width := none,
          height := none }

/-- Lines 98-127: the four constraint attempts built around a device constraint. -/
def constraintAttempts (dc : VideoConstraints) (s : State) : List MediaStreamConstraints :=
  [ { video := .obj { dc with width := some 1280, height := some 720 }, audio := false },
    { video := .obj { dc with width := some 640, height := some 480 }, audio := false },
    { video := .obj dc, audio := false },
    { video := .obj (if s.availableCameras.length > 0 then
                       { deviceId := none, facingMode := none, width := none, height := none }
                     else
                       { deviceId := none, facingMode := some s.currentFacingMode,
                         width := none, height := none }),
      audio := false } ]

/-- The ladder a call `startCamera(deviceId)` made in state `s` builds (lines 77-127), or
the exception thrown while building it. -/
def ladder (P : Platform) (deviceId : Option String) (s : State) :
    Except JsError (List MediaStreamConstraints) :=
  match deviceConstraint deviceId (prepare P s) with
  | .error e => .error e
  | .ok dc => .ok (constraintAttempts dc (prepare P s))

/-- The loop of lines 129-146 over the attempts still to make, with the current value of
`lastError`.  Result: the state, and either the exception rethrown at line 143 or the
value of `lastError` when the loop is left at line 134 or runs out. -/
def attemptLoop (P : Platform) :
    List MediaStreamConstraints → Option JsError → State → State × Except JsError (Option JsError)
  | [], lastError, s => (s, .ok lastError)
  | c :: rest, lastError, s =>
    let s1 := { s with requests := s.requests ++ [c] }
    match P.getUserMedia s.requests.length c with
    | .ok tracks => ({ s1 with stream := some (mkStream s.requests.length tracks) }, .ok lastError)
    | .error error =>
      if isConstraintError error then attemptLoop P rest (some error) s1
      else (s1, .error error)

/-- Lines 155-158: enumerate again when the first camera known has no label yet. -/
def reenumerate (P : Platform) (s : State) : State :=
  match s.availableCameras with
  | camera :: _ => if camera.label = "" then (enumerateCameras P s).1 else s
  | [] => s

/-- Lines 162-165: take over the facing mode the active track reports, when it reports
one. -/
def adoptFacingMode (track : MediaStreamTrack) (s : State) : State :=
  match track.facingMode with
  | some facingMode => if facingMode ≠ "" then { s with currentFacingMode := facingMode } else s
  | none => s

/-- Lines 167-171: hide the status, mark the camera active, update the mirroring.  Result:
the state and the exception thrown, if any. -/
def finishStart (P : Platform) (s : State) : State × Option JsError :=
  let s1 := { hideStatus s with cameraActive := true }
  match updateVideoMirroring P s1 with
  | .ok s2 => (s2, none)
  | .error e => (s1, some e)

/-- Lines 148-177: what follows the loop.  Result: the state and the exception thrown,
if any.  Calling `getSettings()` on `stream.getVideoTracks()[0]` throws a `TypeError`
when the stream has no video track. -/
def afterLoop (P : Platform) (lastError : Option JsError) (s : State) : State × Option JsError :=
  match s.stream with
  | none =>
    (s, some (lastError.getD
      { name := "Error", message := "Failed to access camera after all attempts" }))
  | some st =>
    let s1 := reenumerate P { s with srcObject := some st }
    match st.getVideoTracks with
    | [] => (s1, some (typeError "Cannot read properties of undefined (reading 'getSettings')"))
    | track :: _ => finishStart P (adoptFacingMode track s1)

/-- The `try` block of `startCamera` (lines 76-177): the state and the exception thrown,
if any. -/
def startCameraTry (P : Platform) (deviceId : Option String) (s : State) :
    State × Option JsError :=
  match ladder P deviceId s with
  | .error e => (prepare P s, some e)
  | .ok attempts =>
    match attemptLoop P attempts none (prepare P s) with
    | (s2, .error e) => (s2, some e)
    | (s2, .ok lastError) => afterLoop P lastError s2

/-- The constraints of the last request, line 186. -/
def bareMinimum : MediaStreamConstraints := { video := .bool true, audio := false }

/-- The inner `catch` of lines 192-194 applied to the outcome of lines 187-191: an
exception thrown there is handed to `handleCameraError`. -/
def catchFinal (r : State × Option JsError) : State :=
  match r with
  | (s, none) => s
  | (s, some finalError) => handleCameraError finalError s

/-- The `catch` block of `startCamera` (lines 178-196). -/
def startCameraCatch (P : Platform) (error : JsError) (s : State) : State :=
  if !isConstraintError error then handleCameraError error s
  else
    let s1 := { s with requests := s.requests ++ [bareMinimum] }
    match P.getUserMedia s.requests.length bareMinimum with
    | .ok tracks =>
      let st := mkStream s.requests.length tracks
      catchFinal (finishStart P { s1 with stream := some st, srcObject := some st })
    | .error finalError => handleCameraError finalError s1

/-- The function `startCamera` (lines 75-197). -/
def startCamera (P : Platform) (deviceId : Option String) (s : State) : State :=
  match startCameraTry P deviceId s with
  | (s1, none) => s1
  | (s1, some e) => startCameraCatch P e s1

/-! ## Switching cameras (lines 214-253) -/

/-- Lines 220-246, the `try` block of the click handler: the state and the exception
thrown, if any. -/
def switchCameraTry (P : Platform) (s : State) : State × Option JsError :=
  let s1 :=
    if s.availableCameras.length < 2 then
      startCamera P none (stopCamera
        { s with currentFacingMode :=
                   if s.currentFacingMode = "user" then "environment" else "user" })
    else
      let s2 := { s with currentCameraIndex :=
                           (s.currentCameraIndex + 1) % s.availableCameras.length }
      let s3 := match s2.stream with
        | some st => { stopTracks st s2 with stream := none }
        | none => s2
      startCamera P none s3
  match updateVideoMirroring P s1 with
  | .ok s4 => (s4, none)
  | .error e => (s1, some e)

/-- The click handler of `switchCameraBtn` (lines 214-253). -/
def switchCamera (P : Platform) (s : State) : State :=
  if s.switchDisabled then s
  else
    let r := switchCameraTry P { s with switchDisabled := true }
    let s1 := match r.2 with
      | some e => handleCameraError e r.1
      | none => r.1
    { s1 with switchDisabled := false }

/-! ## Runs of calls and the streams they obtain -/

/-- A run of consecutive `startCamera` calls, one for each argument of the list. -/
def startCameraCalls (P : Platform) : List (Option String) → State → State
  | [], s => s
  | deviceId :: rest, s => startCameraCalls P rest (startCamera P deviceId s)

/-- The streams the platform handed out for a run of stream requests, the first of which
was request number `n`: one stream for every accepted request, in order. -/
def streamsObtained (P : Platform) : Nat → List MediaStreamConstraints → List MediaStream
  | _, [] => []
  | n, c :: cs =>
    (match P.getUserMedia n c with
      | .ok tracks => [mkStream n tracks]
      | .error _ => []) ++ streamsObtained P (n + 1) cs

/-- The identities of the tracks of the stream held in `stream`, if any. -/
def heldIds (s : State) : List (Nat × Nat) :=
  match s.stream with
  | some st => st.getTracks.map (fun t => t.id)
  | none => []

/-! ## Predicates used in the statements -/

/-- The second state has the stream, the stopped tracks, the request log, the reported
errors and the camera index of the first. -/
def SameCore (s s1 : State) : Prop :=
  s1.stream = s.stream ∧ s1.stopped = s.stopped ∧ s1.requests = s.requests ∧
  s1.reported = s.reported ∧ s1.currentCameraIndex = s.currentCameraIndex

/-- The requests of a step and what they brought: the log grows by `new`; either none of
them was accepted and the stream held is the one held before, or exactly one was accepted
and its stream is the one held. -/
def StepOutcome (P : Platform) (s s1 : State) (new : List MediaStreamConstraints) : Prop :=
  s1.requests = s.requests ++ new ∧
  ((streamsObtained P s.requests.length new = [] ∧ s1.stream = s.stream) ∨
   (∃ st, streamsObtained P s.requests.length new = [st] ∧ s1.stream = some st))

/-- The bookkeeping invariant of the stream handle: only tracks of streams already handed
out have been stopped, the stream held was handed out by an earlier request, and every
stream handed out so far is the one held or has all its tracks stopped. -/
def StreamInv (P : Platform) (s : State) : Prop :=
  (∀ id ∈ s.stopped, id.1 < s.requests.length) ∧
  (∀ st, s.stream = some st → ∀ t ∈ st.tracks, t.id.1 < s.requests.length) ∧
  (∀ st ∈ streamsObtained P 0 s.requests,
    s.stream = some st ∨ ∀ t ∈ st.tracks, t.id ∈ s.stopped)

/-! ## Sample platforms and states for the concrete runs -/

/-- Lower-casing of the letters `A`-`Z`, the part of `toLowerCase` the sample platforms
below need. -/
def asciiLower (s : String) : String := String.mk (s.data.map Char.toLower)

/-- A platform for the concrete runs below: two video inputs around an audio input, the
front camera listed last; every stream request is answered with one video track facing
the user. -/
def samplePlatform : Platform :=
  { enumerateDevices := fun _ => .ok
      [ { deviceId := "b", kind := "videoinput", label := "Back Camera" },
        { deviceId := "m", kind := "audioinput", label := "Front microphone" },
        { deviceId := "f", kind := "videoinput", label := "FRONT Camera" } ],
    getUserMedia := fun _ _ => .ok [{ kind := "video", facingMode := some "user" }],
    toLowerCase := asciiLower }

/-- A platform without any device: enumeration resolves with the empty list and every
stream request is rejected with `NotFoundError`. -/
def noDevicePlatform : Platform :=
  { enumerateDevices := fun _ => .ok [],
    getUserMedia := fun _ _ => .error { name := "NotFoundError", message := "" },
    toLowerCase := asciiLower }

/-- A platform that rejects the first two stream requests with `OverconstrainedError` and
accepts every later one with a video track facing the user; two cameras are listed. -/
def pickyPlatform : Platform :=
  { enumerateDevices := fun _ => .ok
      [ { deviceId := "f", kind := "videoinput", label := "Front Camera" },
        { deviceId := "b", kind := "videoinput", label := "Back Camera" } ],
    getUserMedia := fun n _ =>
      if n < 2 then .error { name := "OverconstrainedError", message := "" }
      else .ok [{ kind := "video", facingMode := some "user" }],
    toLowerCase := asciiLower }

/-- A platform on which the user denies the camera: two cameras are listed and every
stream request is rejected with `NotAllowedError`. -/
def deniedPlatform : Platform :=
  { enumerateDevices := fun _ => .ok
      [ { deviceId := "f", kind := "videoinput", label := "" },
        { deviceId := "b", kind := "videoinput", label := "" } ],
    getUserMedia := fun _ _ => .error { name := "NotAllowedError", message := "Permission denied" },
    toLowerCase := asciiLower }

/-- A platform that rejects every constrained stream request with `OverconstrainedError`
and accepts only the request `{video: true, audio: false}`; no camera is listed. -/
def bareOnlyPlatform : Platform :=
  { enumerateDevices := fun _ => .ok [],
    getUserMedia := fun _ c =>
      if c = bareMinimum then .ok [{ kind := "video", facingMode := none }]
      else .error { name := "OverconstrainedError", message := "" },
    toLowerCase := asciiLower }

/-- A platform with one labelled camera that accepts the first stream request and rejects
every later one, whatever its constraints, with `OverconstrainedError`. -/
def onceOnlyPlatform : Platform :=
  { enumerateDevices := fun _ => .ok
      [ { deviceId := "f", kind := "videoinput", label := "Front Camera" } ],
    getUserMedia := fun n _ =>
      if n = 0 then .ok [{ kind := "video", facingMode := some "user" }]
      else .error { name := "OverconstrainedError", message := "" },
    toLowerCase := asciiLower }

/-- The state after the page's first `startCamera()` on `onceOnlyPlatform`: the stream of
request 0 is held. -/
def heldStreamState : State := startCamera onceOnlyPlatform none State.initial

/-- A platform on which a camera disappears: the first enumeration lists two cameras
without labels, every later one lists a single camera; the first stream request is
rejected with `NotReadableError`, every later one is accepted with a video track facing
the environment. -/
def unplugPlatform : Platform :=
  { enumerateDevices := fun n =>
      if n = 0 then .ok
        [ { deviceId := "a", kind := "videoinput", label := "" },
          { deviceId := "b", kind := "videoinput", label := "" } ]
      else .ok [ { deviceId := "b", kind := "videoinput", label := "Back Camera" } ],
    getUserMedia := fun n _ =>
      if n = 0 then .error { name := "NotReadableError", message := "" }
      else .ok [{ kind := "video", facingMode := some "environment" }],
    toLowerCase := asciiLower }

/-- The state after the page's first `startCamera()` on `unplugPlatform` followed by one
click on the switch button. -/
def staleIndexState : State :=
  switchCamera unplugPlatform (startCamera unplugPlatform none State.initial)

/-- A state holding a stream without any video track while one camera is listed. -/
def noVideoTrackState : State :=
  { State.initial with
      stream := some { tracks := [] },
      availableCameras := [ { deviceId := "f", kind := "videoinput", label := "Front Camera" } ] }

/-! ## Device ordering -/

theorem compareCameras_front_left (P : Platform) (a b : MediaDeviceInfo)
    (ha : isFrontLabel P a.label = true) : compareCameras P a b ≤ 0 := by
  unfold compareCameras
  cases hb : isFrontLabel P b.label <;> simp [ha, hb]

theorem compareCameras_back_front (P : Platform) (a b : MediaDeviceInfo)
    (ha : isFrontLabel P a.label = false) (hb : isFrontLabel P b.label = true) :
    ¬ compareCameras P a b ≤ 0 := by
  unfold compareCameras
  simp [ha, hb]

theorem compareCameras_back_back (P : Platform) (a b : MediaDeviceInfo)
    (ha : isFrontLabel P a.label = false) (hb : isFrontLabel P b.label = false) :
    compareCameras P a b ≤ 0 := by
  unfold compareCameras
  simp [ha, hb]

theorem insertByCompare_front (P : Platform) (a : MediaDeviceInfo) (l : List MediaDeviceInfo)
    (ha : isFrontLabel P a.label = true) :
    insertByCompare (compareCameras P) a l = a :: l := by
  cases l with
  | nil => rfl
  | cons b l => simp [insertByCompare, compareCameras_front_left P a b ha]

theorem insertByCompare_back (P : Platform) (a : MediaDeviceInfo)
    (front back : List MediaDeviceInfo) (ha : isFrontLabel P a.label = false)
    (hfront : ∀ b ∈ front, isFrontLabel P b.label = true)
    (hback : ∀ b ∈ back, isFrontLabel P b.label = false) :
    insertByCompare (compareCameras P) a (front ++ back) = front ++ a :: back := by
  induction front with
  | nil =>
    cases back with
    | nil => rfl
    | cons b l =>
      simp [insertByCompare, compareCameras_back_back P a b ha (hback b (by simp))]
  | cons b l ih =>
    have hb := hfront b (by simp)
    have hl : ∀ c ∈ l, isFrontLabel P c.label = true := fun c hc => hfront c (by simp [hc])
    simp [insertByCompare, compareCameras_back_front P a b ha hb, ih hl]

theorem arraySort_compareCameras (P : Platform) (l : List MediaDeviceInfo) :
    arraySort (compareCameras P) l =
      l.filter (fun d => isFrontLabel P d.label) ++
      l.filter (fun d => !isFrontLabel P d.label) := by
  induction l with
  | nil => rfl
  | cons a l ih =>
    simp only [arraySort, ih]
    cases ha : isFrontLabel P a.label
    · rw [insertByCompare_back P a _ _ ha (by simp) (by simp)]
      simp [List.filter_cons, ha]
    · rw [insertByCompare_front P a _ ha]
      simp [List.filter_cons, ha]

/-- Claim C1. When the platform resolves `enumerateDevices()` with the list `devices`, the
list `availableCameras` retained by `enumerateCameras` is: the devices of kind
`'videoinput'` whose lower-cased label includes `'front'`, `'user'` or `'facing'`, in
input order, followed by the devices of kind `'videoinput'` whose label includes none of
them, in input order. -/
theorem enumerateCameras_front_first (P : Platform) (s : State) (devices : List MediaDeviceInfo)
    (h : P.enumerateDevices s.enumCalls = .ok devices) :
    (enumerateCameras P s).1.availableCameras =
      (devices.filter (fun d => d.kind = "videoinput")).filter
          (fun d => isFrontLabel P d.label) ++
      (devices.filter (fun d => d.kind = "videoinput")).filter
          (fun d => !isFrontLabel P d.label) := by
  simp only [enumerateCameras, h]
  exact arraySort_compareCameras P _

theorem enumerateCameras_front_first_witness :
    samplePlatform.enumerateDevices State.initial.enumCalls = .ok
      [ { deviceId := "b", kind := "videoinput", label := "Back Camera" },
        { deviceId := "m", kind := "audioinput", label := "Front microphone" },
        { deviceId := "f", kind := "videoinput", label := "FRONT Camera" } ] ∧
    (enumerateCameras samplePlatform State.initial).1.availableCameras =
      [ { deviceId := "f", kind := "videoinput", label := "FRONT Camera" },
        { deviceId := "b", kind := "videoinput", label := "Back Camera" } ] :=
  ⟨rfl, (enumerateCameras_front_first samplePlatform State.initial _ rfl).trans (by decide)⟩

/-! ## Error reporting -/

/-- Claim C9. For every error passed to `handleCameraError`, the status is shown with the
message and retry flag of `cameraErrorReport`; the retry flag is `true` exactly when the
error's name is none of `NotFoundError`, `DevicesNotFoundError`, `NotSupportedError`;
the two permission-denied names and the two device-busy names give `true`, the two
not-found names and `NotSupportedError` give `false`; and for a name outside these seven
the message is `'Unable to access camera.\n'` followed by the error's own message when it
has one. -/
theorem handleCameraError_retry (error : JsError) (s : State) :
    (handleCameraError error s).status.map (fun shown => (shown.message, shown.showRetry)) =
        some (cameraErrorReport error) ∧
    (handleCameraError error s).reported = s.reported ++ [error] ∧
    ((cameraErrorReport error).2 = true ↔
        error.name ∉ ["NotFoundError", "DevicesNotFoundError", "NotSupportedError"]) ∧
    (error.name ∈ ["NotAllowedError", "PermissionDeniedError", "NotReadableError",
        "TrackStartError"] → (cameraErrorReport error).2 = true) ∧
    (error.name ∈ ["NotFoundError", "DevicesNotFoundError", "NotSupportedError"] →
        (cameraErrorReport error).2 = false) ∧
    (error.name ∉ ["NotAllowedError", "PermissionDeniedError", "NotFoundError",
        "DevicesNotFoundError", "NotReadableError", "TrackStartError", "NotSupportedError"] →
        (cameraErrorReport error).2 = true ∧
        (error.message ≠ "" →
          (cameraErrorReport error).1 = "Unable to access camera.\n" ++ error.message)) := by
  refine ⟨rfl, rfl, ?_, ?_, ?_, ?_⟩
  · unfold cameraErrorReport
    simp only [List.mem_cons, List.mem_singleton, List.not_mem_nil, or_false, not_or]
    split_ifs with h1 h2 h3 h4
    · rcases h1 with h | h <;> simp [h]
    · rcases h2 with h | h <;> simp [h]
    · rcases h3 with h | h <;> simp [h]
    · simp [h4]
    · simp_all
    · simp_all
  · unfold cameraErrorReport
    simp only [List.mem_cons, List.mem_singleton, List.not_mem_nil, or_false]
    intro h
    rcases h with h | h | h | h <;> simp [h]
  · unfold cameraErrorReport
    simp only [List.mem_cons, List.mem_singleton, List.not_mem_nil, or_false]
    intro h
    rcases h with h | h | h <;> simp [h]
  · unfold cameraErrorReport
    simp only [List.mem_cons, List.mem_singleton, List.not_mem_nil, or_false, not_or]
    intro h
    simp only [h, false_or, if_false, true_and]
    intro hm
    simp [hm]

theorem handleCameraError_retry_witness :
    (handleCameraError { name := "AbortError", message := "Starting video failed" }
        State.initial).status.map (fun shown => (shown.message, shown.showRetry)) =
      some ("Unable to access camera.\nStarting video failed", true) :=
  (handleCameraError_retry { name := "AbortError", message := "Starting video failed" }
    State.initial).1.trans (by decide)

/-! ## What the steps leave untouched -/

theorem enumerateCameras_frame (P : Platform) (s : State) :
    (enumerateCameras P s).1.stream = s.stream ∧
    (enumerateCameras P s).1.currentFacingMode = s.currentFacingMode ∧
    (enumerateCameras P s).1.currentCameraIndex = s.currentCameraIndex ∧
    (enumerateCameras P s).1.stopped = s.stopped ∧
    (enumerateCameras P s).1.requests = s.requests ∧
    (enumerateCameras P s).1.reported = s.reported := by
  unfold enumerateCameras
  cases P.enumerateDevices s.enumCalls <;> simp

theorem prepare_frame (P : Platform) (s : State) :
    (prepare P s).stream = s.stream ∧
    (prepare P s).currentFacingMode = s.currentFacingMode ∧
    (prepare P s).currentCameraIndex = s.currentCameraIndex ∧
    (prepare P s).requests = s.requests ∧
    (prepare P s).reported = s.reported := by
  unfold prepare
  cases hs : s.stream <;> simp only [] <;> split_ifs <;>
    simp [enumerateCameras_frame, stopTracks, hs]

theorem prepare_stopped (P : Platform) (s : State) :
    (prepare P s).stopped =
      s.stopped ++ (match s.stream with
        | some st => st.getTracks.map (fun t => t.id)
        | none => []) := by
  unfold prepare
  cases hs : s.stream <;> simp only [] <;> split_ifs <;>
    simp [enumerateCameras_frame, stopTracks]

theorem handleCameraError_frame (error : JsError) (s : State) :
    (handleCameraError error s).stream = s.stream ∧
    (handleCameraError error s).stopped = s.stopped ∧
    (handleCameraError error s).requests = s.requests ∧
    (handleCameraError error s).availableCameras = s.availableCameras ∧
    (handleCameraError error s).currentCameraIndex = s.currentCameraIndex :=
  ⟨rfl, rfl, rfl, rfl, rfl⟩

theorem updateVideoMirroring_frame (P : Platform) (s s1 : State)
    (h : updateVideoMirroring P s = .ok s1) :
    s1.stream = s.stream ∧ s1.stopped = s.stopped ∧ s1.requests = s.requests ∧
    s1.availableCameras = s.availableCameras ∧
    s1.currentCameraIndex = s.currentCameraIndex ∧ s1.reported = s.reported ∧
    s1.status = s.status := by
  unfold updateVideoMirroring at h
  cases hd : mirrorDecision P s with
  | error e => simp [hd] at h
  | ok b =>
    simp only [hd, Except.ok.injEq] at h
    subst h
    simp

/-! ## The constraint ladder -/

/-- Claim C5. For every call of `startCamera` without a (truthy) device identifier in which
the device list is empty after the enumeration step and `currentFacingMode` is `'user'`,
the ladder built has exactly four rungs: rungs 1-3 have a video part with `facingMode`
`'user'` and no `deviceId` (rung 1 with ideal 1280x720, rung 2 with ideal 640x480, rung 3
with nothing else), rung 4's video part is `{facingMode: 'user'}`, and every rung has
`audio: false`. -/
theorem ladder_facing_user (P : Platform) (deviceId : Option String) (s : State)
    (hid : truthy deviceId = false) (hempty : (prepare P s).availableCameras = [])
    (hmode : s.currentFacingMode = "user") :
    ladder P deviceId s = .ok
      [ { video := .obj { deviceId := none, facingMode := some "user", width := some 1280,
                          height := some 720 }, audio := false },
        { video := .obj { deviceId := none, facingMode := some "user", width := some 640,
                          height := some 480 }, audio := false },
        { video := .obj { deviceId := none, facingMode := some "user", width := none,
                          height := none }, audio := false },
        { video := .obj { deviceId := none, facingMode := some "user", width := none,
                          height := none }, audio := false } ] := by
  have hfm : (prepare P s).currentFacingMode = "user" := by
    rw [(prepare_frame P s).2.1, hmode]
  simp [ladder, deviceConstraint, constraintAttempts, hid, hempty, hfm]

theorem ladder_facing_user_witness :
    ladder noDevicePlatform none State.initial = .ok
      [ { video := .obj { deviceId := none, facingMode := some "user", width := some 1280,
                          height := some 720 }, audio := false },
        { video := .obj { deviceId := none, facingMode := some "user", width := some 640,
                          height := some 480 }, audio := false },
        { video := .obj { deviceId := none, facingMode := some "user", width := none,
                          height := none }, audio := false },
        { video := .obj { deviceId := none, facingMode := some "user", width := none,
                          height := none }, audio := false } ] :=
  ladder_facing_user noDevicePlatform none State.initial rfl rfl rfl

/-! ## The attempt loop -/

/-- While the platform rejects the first `j` attempts with constraint errors, the loop
logs them and goes on with the remaining attempts; `lastError` is then a constraint error
(or, when `j = 0`, what it was). -/
theorem attemptLoop_skip (P : Platform) (L : List MediaStreamConstraints) :
    ∀ (j : Nat) (lastError : Option JsError) (s : State), j ≤ L.length →
      (∀ i c, i < j → L[i]? = some c →
        ∃ e, P.getUserMedia (s.requests.length + i) c = .error e ∧ isConstraintError e = true) →
      ∃ lastError1,
        attemptLoop P L lastError s =
          attemptLoop P (L.drop j) lastError1 { s with requests := s.requests ++ L.take j } ∧
        (j = 0 → lastError1 = lastError) ∧
        (0 < j → ∃ e, lastError1 = some e ∧ isConstraintError e = true) := by
  induction L with
  | nil =>
    intro j lastError s hj _
    have : j = 0 := by simpa using hj
    subst this
    exact ⟨lastError, by simp, fun _ => rfl, fun h => absurd h (by decide)⟩
  | cons c rest ih =>
    intro j lastError s hj hrej
    cases j with
    | zero => exact ⟨lastError, by simp, fun _ => rfl, fun h => absurd h (by decide)⟩
    | succ j =>
      obtain ⟨e, he, hce⟩ := hrej 0 c (Nat.succ_pos j) (by simp)
      have hj1 : j ≤ rest.length := by simpa using hj
      obtain ⟨l1, hl1, h0, hpos⟩ := ih j (some e) { s with requests := s.requests ++ [c] } hj1
        (by
          intro i c1 hi hc1
          have := hrej (i + 1) c1 (by omega) (by simpa using hc1)
          simpa [Nat.add_assoc, Nat.add_comm 1 i] using this)
      refine ⟨l1, ?_, fun h => absurd h (by omega), fun _ => ?_⟩
      · simp only [attemptLoop, Nat.add_zero] at he ⊢
        simp only [he, hce, if_true, hl1, List.drop_succ_cons, List.take_succ_cons,
          List.append_assoc, List.singleton_append]
      · cases j with
        | zero => exact ⟨e, h0 rfl, hce⟩
        | succ j => exact hpos (Nat.succ_pos j)

/-! ## Steps that make no request, stop no track and keep the stream -/

theorem SameCore.rfl (s : State) : SameCore s s :=
  ⟨Eq.refl _, Eq.refl _, Eq.refl _, Eq.refl _, Eq.refl _⟩

theorem SameCore.trans {s s1 s2 : State} (h1 : SameCore s s1) (h2 : SameCore s1 s2) :
    SameCore s s2 :=
  ⟨h2.1.trans h1.1, h2.2.1.trans h1.2.1, h2.2.2.1.trans h1.2.2.1,
    h2.2.2.2.1.trans h1.2.2.2.1, h2.2.2.2.2.trans h1.2.2.2.2⟩

theorem enumerateCameras_core (P : Platform) (s : State) :
    SameCore s (enumerateCameras P s).1 :=
  have h := enumerateCameras_frame P s
  ⟨h.1, h.2.2.2.1, h.2.2.2.2.1, h.2.2.2.2.2, h.2.2.1⟩

theorem reenumerate_core (P : Platform) (s : State) : SameCore s (reenumerate P s) := by
  unfold reenumerate
  split
  · split_ifs
    · exact enumerateCameras_core P s
    · exact SameCore.rfl s
  · exact SameCore.rfl s

theorem adoptFacingMode_core (track : MediaStreamTrack) (s : State) :
    SameCore s (adoptFacingMode track s) := by
  unfold adoptFacingMode
  split
  · split_ifs
    · exact ⟨rfl, rfl, rfl, rfl, rfl⟩
    · exact SameCore.rfl s
  · exact SameCore.rfl s

theorem mirrorFromLabel_error (P : Platform) (s : State) (b : Bool) (e : JsError)
    (h : mirrorFromLabel P s b = .error e) : isConstraintError e = false := by
  unfold mirrorFromLabel at h
  by_cases hl : s.availableCameras.length > 0
  · rw [if_pos hl] at h
    cases hs : s.stream with
    | none => simp [hs] at h
    | some st =>
      cases hc : s.availableCameras[s.currentCameraIndex]? with
      | none =>
        simp only [hs, hc, Except.error.injEq] at h
        subst h
        decide
      | some camera =>
        cases hv : st.getVideoTracks with
        | nil =>
          simp only [hs, hc, hv, Except.error.injEq] at h
          subst h
          decide
        | cons track rest =>
          simp only [hs, hc, hv] at h
          split_ifs at h
  · rw [if_neg hl] at h
    simp at h

/-- An error thrown by `updateVideoMirroring` is a `TypeError`, not a constraint error. -/
theorem updateVideoMirroring_error (P : Platform) (s : State) (e : JsError)
    (h : updateVideoMirroring P s = .error e) : isConstraintError e = false := by
  unfold updateVideoMirroring mirrorDecision at h
  cases hm : mirrorFromLabel P s (mirrorFromTrack s) with
  | error e1 =>
    simp only [hm, Except.error.injEq] at h
    subst h
    exact mirrorFromLabel_error P s _ _ hm
  | ok b =>
    simp [hm] at h

theorem finishStart_core (P : Platform) (s : State) :
    SameCore s (finishStart P s).1 ∧
    ∀ e, (finishStart P s).2 = some e → isConstraintError e = false := by
  unfold finishStart
  simp only []
  split
  · rename_i s2 hu
    obtain ⟨f1, f2, f3, _, f5, f6, _⟩ := updateVideoMirroring_frame P _ _ hu
    exact ⟨⟨f1, f2, f3, f6, f5⟩, by simp⟩
  · rename_i e hu
    refine ⟨⟨rfl, rfl, rfl, rfl, rfl⟩, ?_⟩
    intro e1 he1
    simp only [Option.some.injEq] at he1
    subst he1
    exact updateVideoMirroring_error P _ _ hu

theorem catchFinal_frame (r : State × Option JsError) :
    (catchFinal r).stream = r.1.stream ∧ (catchFinal r).stopped = r.1.stopped ∧
    (catchFinal r).requests = r.1.requests := by
  obtain ⟨s, thrown⟩ := r
  cases thrown <;> exact ⟨rfl, rfl, rfl⟩

theorem catchFinal_index (r : State × Option JsError) :
    (catchFinal r).currentCameraIndex = r.1.currentCameraIndex := by
  obtain ⟨s, thrown⟩ := r
  cases thrown <;> rfl

/-- What follows a loop that left a stream in `stream` makes no stream request, stops no
track, keeps the stream, reports nothing, and can only throw an error that is not a
constraint error. -/
theorem afterLoop_held (P : Platform) (lastError : Option JsError) (s : State)
    (st : MediaStream) (hst : s.stream = some st) :
    SameCore s (afterLoop P lastError s).1 ∧
    ∀ e, (afterLoop P lastError s).2 = some e → isConstraintError e = false := by
  unfold afterLoop
  split
  · rename_i hn
    rw [hst] at hn
    cases hn
  · rename_i st1 _
    simp only []
    have h1 : SameCore s (reenumerate P { s with srcObject := some st1 }) :=
      SameCore.trans ⟨rfl, rfl, rfl, rfl, rfl⟩ (reenumerate_core P _)
    split
    · refine ⟨h1, ?_⟩
      intro e he
      simp only [Option.some.injEq] at he
      subst he
      decide
    · rename_i track rest _
      have h2 := adoptFacingMode_core track (reenumerate P { s with srcObject := some st1 })
      have h3 := finishStart_core P
        (adoptFacingMode track (reenumerate P { s with srcObject := some st1 }))
      exact ⟨SameCore.trans (SameCore.trans h1 h2) h3.1, h3.2⟩

/-- What follows a loop that left no stream throws `lastError` (or a plain `Error` when
there is none) and changes nothing. -/
theorem afterLoop_none (P : Platform) (lastError : Option JsError) (s : State)
    (hst : s.stream = none) :
    afterLoop P lastError s = (s, some (lastError.getD
      { name := "Error", message := "Failed to access camera after all attempts" })) := by
  unfold afterLoop
  rw [hst]

/-! ## Outcomes of `startCamera` along the ladder -/

theorem ladder_length (P : Platform) (deviceId : Option String) (s : State)
    (L : List MediaStreamConstraints) (hL : ladder P deviceId s = .ok L) : L.length = 4 := by
  unfold ladder at hL
  cases hd : deviceConstraint deviceId (prepare P s) with
  | error e => simp [hd] at hL
  | ok dc =>
    simp only [hd, Except.ok.injEq] at hL
    subst hL
    rfl

theorem startCameraCatch_other (P : Platform) (e : JsError) (s : State)
    (he : isConstraintError e = false) : startCameraCatch P e s = handleCameraError e s := by
  simp [startCameraCatch, he]

/-- Once the loop has left a stream in `stream`, the rest of `startCamera` makes no
request, stops no track and keeps that stream. -/
theorem startCamera_of_loop_held (P : Platform) (deviceId : Option String) (s s2 : State)
    (L : List MediaStreamConstraints) (lastError : Option JsError) (st : MediaStream)
    (hL : ladder P deviceId s = .ok L)
    (hloop : attemptLoop P L none (prepare P s) = (s2, .ok lastError))
    (hst : s2.stream = some st) :
    (startCamera P deviceId s).requests = s2.requests ∧
    (startCamera P deviceId s).stream = some st ∧
    (startCamera P deviceId s).stopped = s2.stopped := by
  obtain ⟨hcore, herr⟩ := afterLoop_held P lastError s2 st hst
  unfold startCamera startCameraTry
  simp only [hL, hloop]
  cases hthrown : (afterLoop P lastError s2).2 with
  | none =>
    have : afterLoop P lastError s2 = ((afterLoop P lastError s2).1, none) := by
      rw [← hthrown]
    rw [this]
    exact ⟨hcore.2.2.1, hcore.1.trans hst, hcore.2.1⟩
  | some e =>
    have : afterLoop P lastError s2 = ((afterLoop P lastError s2).1, some e) := by
      rw [← hthrown]
    rw [this]
    simp only [startCameraCatch_other P e _ (herr e hthrown)]
    exact ⟨hcore.2.2.1, hcore.1.trans hst, hcore.2.1⟩

/-- Claim C2. For every starting state and every `k` in 1..4, for a call of `startCamera`
that builds the ladder `L`: if the platform rejects rungs 1..`k`-1 with an error named
`OverconstrainedError` or `ConstraintNotSatisfiedError` and accepts rung `k`, then the
call makes exactly `k` stream requests, the first `k` rungs of the ladder in order (so no
later rung and no bare-minimum request), and the stream held afterwards is the one
returned for rung `k`. -/
theorem startCamera_first_accepted (P : Platform) (deviceId : Option String) (s : State)
    (L : List MediaStreamConstraints) (k : Nat) (tracks : List TrackInfo)
    (hL : ladder P deviceId s = .ok L) (hk1 : 1 ≤ k) (hk4 : k ≤ 4)
    (hrej : ∀ i c, i + 1 < k → L[i]? = some c →
      ∃ e, P.getUserMedia (s.requests.length + i) c = .error e ∧ isConstraintError e = true)
    (hacc : ∀ c, L[k - 1]? = some c →
      P.getUserMedia (s.requests.length + (k - 1)) c = .ok tracks) :
    (startCamera P deviceId s).requests = s.requests ++ L.take k ∧
    (startCamera P deviceId s).requests.length = s.requests.length + k ∧
    (startCamera P deviceId s).stream = some (mkStream (s.requests.length + (k - 1)) tracks) := by
  have hlen := ladder_length P deviceId s L hL
  have hreq : (prepare P s).requests = s.requests := (prepare_frame P s).2.2.2.1
  obtain ⟨j, rfl⟩ : ∃ j, k = j + 1 := ⟨k - 1, by omega⟩
  simp only [Nat.add_sub_cancel] at hacc ⊢
  have hj : j < L.length := by omega
  obtain ⟨l1, hl1, _, _⟩ := attemptLoop_skip P L j none (prepare P s) (by omega)
    (by
      intro i c hi hc
      rw [hreq]
      exact hrej i c (by omega) hc)
  have hdrop : L.drop j = L[j] :: L.drop (j + 1) := List.drop_eq_getElem_cons hj
  have hget : P.getUserMedia (s.requests.length + j) L[j] = .ok tracks :=
    hacc L[j] (List.getElem?_eq_getElem hj)
  have htake : L.take (j + 1) = L.take j ++ [L[j]] := by
    rw [List.take_succ, List.getElem?_eq_getElem hj]
    rfl
  have hlt : (L.take j).length = j := by
    rw [List.length_take]
    omega
  have hloop : attemptLoop P L none (prepare P s) =
      ({ prepare P s with requests := s.requests ++ L.take (j + 1),
                          stream := some (mkStream (s.requests.length + j) tracks) },
        .ok l1) := by
    rw [hl1, hdrop]
    simp only [attemptLoop, hreq, List.length_append, hlt, hget, htake, List.append_assoc]
  obtain ⟨h1, h2, _⟩ := startCamera_of_loop_held P deviceId s _ L l1 _ hL hloop rfl
  refine ⟨h1, ?_, h2⟩
  rw [h1, List.length_append, List.length_take]
  omega

theorem startCamera_first_accepted_witness :
    (startCamera pickyPlatform none State.initial).requests =
      [ { video := .obj { deviceId := some "f", facingMode := none, width := some 1280,
                          height := some 720 }, audio := false },
        { video := .obj { deviceId := some "f", facingMode := none, width := some 640,
                          height := some 480 }, audio := false },
        { video := .obj { deviceId := some "f", facingMode := none, width := none,
                          height := none }, audio := false } ] ∧
    (startCamera pickyPlatform none State.initial).stream =
      some (mkStream 2 [{ kind := "video", facingMode := some "user" }]) :=
  have h := startCamera_first_accepted pickyPlatform none State.initial
    [ { video := .obj { deviceId := some "f", facingMode := none, width := some 1280,
                        height := some 720 }, audio := false },
      { video := .obj { deviceId := some "f", facingMode := none, width := some 640,
                        height := some 480 }, audio := false },
      { video := .obj { deviceId := some "f", facingMode := none, width := none,
                        height := none }, audio := false },
      { video := .obj { deviceId := none, facingMode := none, width := none,
                        height := none }, audio := false } ]
    3 [{ kind := "video", facingMode := some "user" }] (by rfl) (by decide) (by decide)
    (by
      intro i c hi _
      refine ⟨{ name := "OverconstrainedError", message := "" }, ?_, by decide⟩
      have h2 : i < 2 := by omega
      simp [pickyPlatform, State.initial, h2])
    (by intro c _; rfl)
  ⟨h.1, h.2.2⟩

/-- Claim C3. For every starting state, every `k` in 1..4 and every error whose name is
neither `OverconstrainedError` nor `ConstraintNotSatisfiedError`, for a call of
`startCamera` that builds the ladder `L`: if the platform rejects rungs 1..`k`-1 with
constraint errors and rung `k` with that error, then the call makes exactly the first `k`
rungs' requests (no later rung, no bare-minimum request) and hands exactly that error to
`handleCameraError`, whose message and retry flag are shown; for `NotAllowedError` these
are the permission-denied message and retry `true`. -/
theorem startCamera_other_error_aborts (P : Platform) (deviceId : Option String) (s : State)
    (L : List MediaStreamConstraints) (k : Nat) (error : JsError)
    (hL : ladder P deviceId s = .ok L) (hk1 : 1 ≤ k) (hk4 : k ≤ 4)
    (hname : error.name ≠ "OverconstrainedError" ∧ error.name ≠ "ConstraintNotSatisfiedError")
    (hrej : ∀ i c, i + 1 < k → L[i]? = some c →
      ∃ e, P.getUserMedia (s.requests.length + i) c = .error e ∧ isConstraintError e = true)
    (hfail : ∀ c, L[k - 1]? = some c →
      P.getUserMedia (s.requests.length + (k - 1)) c = .error error) :
    (startCamera P deviceId s).requests = s.requests ++ L.take k ∧
    (startCamera P deviceId s).requests.length = s.requests.length + k ∧
    (startCamera P deviceId s).reported = s.reported ++ [error] ∧
    (startCamera P deviceId s).status.map (fun shown => (shown.message, shown.showRetry)) =
      some (cameraErrorReport error) ∧
    (error.name = "NotAllowedError" → cameraErrorReport error =
      ("Camera permission denied.\nPlease allow camera access in your browser settings.",
        true)) := by
  have hlen := ladder_length P deviceId s L hL
  have hreq : (prepare P s).requests = s.requests := (prepare_frame P s).2.2.2.1
  have hrep : (prepare P s).reported = s.reported := (prepare_frame P s).2.2.2.2
  have hnc : isConstraintError error = false := by
    simp [isConstraintError, hname.1, hname.2]
  obtain ⟨j, rfl⟩ : ∃ j, k = j + 1 := ⟨k - 1, by omega⟩
  simp only [Nat.add_sub_cancel] at hfail ⊢
  have hj : j < L.length := by omega
  obtain ⟨l1, hl1, _, _⟩ := attemptLoop_skip P L j none (prepare P s) (by omega)
    (by
      intro i c hi hc
      rw [hreq]
      exact hrej i c (by omega) hc)
  have hdrop : L.drop j = L[j] :: L.drop (j + 1) := List.drop_eq_getElem_cons hj
  have hget : P.getUserMedia (s.requests.length + j) L[j] = .error error :=
    hfail L[j] (List.getElem?_eq_getElem hj)
  have htake : L.take (j + 1) = L.take j ++ [L[j]] := by
    rw [List.take_succ, List.getElem?_eq_getElem hj]
    rfl
  have hlt : (L.take j).length = j := by
    rw [List.length_take]
    omega
  have hloop : attemptLoop P L none (prepare P s) =
      ({ prepare P s with requests := s.requests ++ L.take (j + 1) }, .error error) := by
    rw [hl1, hdrop]
    simp only [attemptLoop, hreq, List.length_append, hlt, hget, htake, List.append_assoc, hnc,
      Bool.false_eq_true, if_false]
  have hfinal : startCamera P deviceId s =
      handleCameraError error { prepare P s with requests := s.requests ++ L.take (j + 1) } := by
    unfold startCamera startCameraTry
    simp only [hL, hloop]
    exact startCameraCatch_other P error _ hnc
  rw [hfinal]
  refine ⟨rfl, ?_, ?_, rfl, ?_⟩
  · show (s.requests ++ L.take (j + 1)).length = _
    rw [List.length_append, List.length_take]
    omega
  · show (prepare P s).reported ++ [error] = _
    rw [hrep]
  · intro h
    unfold cameraErrorReport
    rw [if_pos (Or.inl h)]

theorem startCamera_other_error_aborts_witness :
    (startCamera deniedPlatform none State.initial).requests =
      [ { video := .obj { deviceId := some "f", facingMode := none, width := some 1280,
                          height := some 720 }, audio := false } ] ∧
    (startCamera deniedPlatform none State.initial).reported =
      [{ name := "NotAllowedError", message := "Permission denied" }] ∧
    (startCamera deniedPlatform none State.initial).status.map
        (fun shown => (shown.message, shown.showRetry)) =
      some ("Camera permission denied.\nPlease allow camera access in your browser settings.",
        true) :=
  have h := startCamera_other_error_aborts deniedPlatform none State.initial
    [ { video := .obj { deviceId := some "f", facingMode := none, width := some 1280,
                        height := some 720 }, audio := false },
      { video := .obj { deviceId := some "f", facingMode := none, width := some 640,
                        height := some 480 }, audio := false },
      { video := .obj { deviceId := some "f", facingMode := none, width := none,
                        height := none }, audio := false },
      { video := .obj { deviceId := none, facingMode := none, width := none,
                        height := none }, audio := false } ]
    1 { name := "NotAllowedError", message := "Permission denied" } (by rfl) (by decide)
    (by decide) (by decide)
    (by intro i c hi _; omega)
    (by intro c _; rfl)
  ⟨h.1, h.2.2.1, h.2.2.2.1.trans (by rw [h.2.2.2.2 rfl])⟩

/-- When no stream is held at the start and the platform rejects all four rungs with
constraint errors, `startCamera` makes exactly one more request, with
`{video: true, audio: false}`; if it is accepted its stream becomes the held stream, and
if it is rejected that error is the one reported. -/
theorem startCamera_exhausted_fallback (P : Platform) (deviceId : Option String) (s : State)
    (L : List MediaStreamConstraints) (hs : s.stream = none)
    (hL : ladder P deviceId s = .ok L)
    (hrej : ∀ i c, L[i]? = some c →
      ∃ e, P.getUserMedia (s.requests.length + i) c = .error e ∧ isConstraintError e = true) :
    (startCamera P deviceId s).requests = s.requests ++ L ++ [bareMinimum] ∧
    (∀ tracks, P.getUserMedia (s.requests.length + 4) bareMinimum = .ok tracks →
      (startCamera P deviceId s).stream = some (mkStream (s.requests.length + 4) tracks)) ∧
    (∀ e, P.getUserMedia (s.requests.length + 4) bareMinimum = .error e →
      (startCamera P deviceId s).reported = s.reported ++ [e] ∧
      (startCamera P deviceId s).stream = none) := by
  have hlen := ladder_length P deviceId s L hL
  have hreq : (prepare P s).requests = s.requests := (prepare_frame P s).2.2.2.1
  have hrep : (prepare P s).reported = s.reported := (prepare_frame P s).2.2.2.2
  have hstr : (prepare P s).stream = none := (prepare_frame P s).1.trans hs
  obtain ⟨l1, hl1, _, hpos⟩ := attemptLoop_skip P L L.length none (prepare P s) (le_refl _)
    (by
      intro i c _ hc
      rw [hreq]
      exact hrej i c hc)
  obtain ⟨e4, rfl, he4⟩ := hpos (by omega)
  have hloop : attemptLoop P L none (prepare P s) =
      ({ prepare P s with requests := s.requests ++ L }, .ok (some e4)) := by
    rw [hl1]
    simp [attemptLoop, hreq]
  have htry : startCameraTry P deviceId s =
      ({ prepare P s with requests := s.requests ++ L }, some e4) := by
    unfold startCameraTry
    simp only [hL, hloop]
    exact afterLoop_none P _ _ hstr
  have hl4 : (s.requests ++ L).length = s.requests.length + 4 := by
    rw [List.length_append, hlen]
  cases hg : P.getUserMedia (s.requests.length + 4) bareMinimum with
  | error e =>
    have hfinal : startCamera P deviceId s =
        handleCameraError e
          { prepare P s with requests := s.requests ++ L ++ [bareMinimum] } := by
      unfold startCamera
      simp only [htry, startCameraCatch, he4, Bool.not_true, Bool.false_eq_true, if_false,
        hl4, hg]
    rw [hfinal]
    refine ⟨rfl, (by intro tracks h; cases h), ?_⟩
    intro e1 h1
    cases h1
    exact ⟨by show (prepare P s).reported ++ [e] = _; rw [hrep], hstr⟩
  | ok tracks =>
    have hfinal : startCamera P deviceId s =
        catchFinal (finishStart P
          { prepare P s with requests := s.requests ++ L ++ [bareMinimum],
                             stream := some (mkStream (s.requests.length + 4) tracks),
                             srcObject := some (mkStream (s.requests.length + 4) tracks) }) := by
      unfold startCamera
      simp only [htry, startCameraCatch, he4, Bool.not_true, Bool.false_eq_true, if_false,
        hl4, hg]
    rw [hfinal]
    obtain ⟨hcore, _⟩ := finishStart_core P
      { prepare P s with requests := s.requests ++ L ++ [bareMinimum],
                         stream := some (mkStream (s.requests.length + 4) tracks),
                         srcObject := some (mkStream (s.requests.length + 4) tracks) }
    obtain ⟨c1, c2, c3⟩ := catchFinal_frame (finishStart P
      { prepare P s with requests := s.requests ++ L ++ [bareMinimum],
                         stream := some (mkStream (s.requests.length + 4) tracks),
                         srcObject := some (mkStream (s.requests.length + 4) tracks) })
    refine ⟨c3.trans hcore.2.2.1, ?_, (by intro e h; cases h)⟩
    intro t ht
    cases ht
    exact c1.trans hcore.1

theorem startCamera_exhausted_fallback_witness :
    (startCamera bareOnlyPlatform none State.initial).requests.length = 5 ∧
    (startCamera bareOnlyPlatform none State.initial).requests.getLast? = some bareMinimum ∧
    (startCamera bareOnlyPlatform none State.initial).stream =
      some (mkStream 4 [{ kind := "video", facingMode := none }]) :=
  have h := startCamera_exhausted_fallback bareOnlyPlatform none State.initial
    [ { video := .obj { deviceId := none, facingMode := some "user", width := some 1280,
                        height := some 720 }, audio := false },
      { video := .obj { deviceId := none, facingMode := some "user", width := some 640,
                        height := some 480 }, audio := false },
      { video := .obj { deviceId := none, facingMode := some "user", width := none,
                        height := none }, audio := false },
      { video := .obj { deviceId := none, facingMode := some "user", width := none,
                        height := none }, audio := false } ]
    rfl (by rfl)
    (by
      intro i c hc
      refine ⟨{ name := "OverconstrainedError", message := "" }, ?_, by decide⟩
      have hne : c ≠ bareMinimum := by
        intro hb
        subst hb
        have : i < 4 := by
          by_contra hcon
          have : 4 ≤ i := by omega
          simp [List.getElem?_eq_none, this] at hc
        interval_cases i <;> simp [bareMinimum] at hc
      simp [bareOnlyPlatform, hne])
  ⟨by rw [h.1]; rfl, by rw [h.1]; rfl, h.2.1 _ rfl⟩

/-! ## One live stream at a time -/

theorem streamsObtained_append (P : Platform) (a b : List MediaStreamConstraints) :
    ∀ n, streamsObtained P n (a ++ b) =
      streamsObtained P n a ++ streamsObtained P (n + a.length) b := by
  induction a with
  | nil => intro n; simp [streamsObtained]
  | cons c cs ih =>
    intro n
    have hn : n + 1 + cs.length = n + (cs.length + 1) := by omega
    rw [List.cons_append]
    simp only [streamsObtained, List.length_cons, List.append_assoc]
    rw [ih (n + 1), hn]

theorem mkStream_id (n : Nat) (infos : List TrackInfo) :
    ∀ t ∈ (mkStream n infos).tracks, t.id.1 = n := by
  intro t ht
  simp only [mkStream, List.mem_map] at ht
  obtain ⟨p, _, rfl⟩ := ht
  rfl

theorem streamsObtained_ids (P : Platform) (l : List MediaStreamConstraints) :
    ∀ n, ∀ st ∈ streamsObtained P n l, ∀ t ∈ st.tracks, n ≤ t.id.1 ∧ t.id.1 < n + l.length := by
  induction l with
  | nil => intro n st hst; simp [streamsObtained] at hst
  | cons c cs ih =>
    intro n st hst t ht
    simp only [streamsObtained, List.mem_append] at hst
    rcases hst with hst | hst
    · cases hg : P.getUserMedia n c with
      | error e => simp [hg] at hst
      | ok tracks =>
        simp only [hg, List.mem_singleton] at hst
        subst hst
        have := mkStream_id n tracks t ht
        simp only [List.length_cons]
        omega
    · have := ih (n + 1) st hst t ht
      simp only [List.length_cons]
      omega

theorem prepare_stopped_held (P : Platform) (s : State) :
    (prepare P s).stopped = s.stopped ++ heldIds s := by
  rw [prepare_stopped]
  rfl

theorem attemptLoop_outcome (P : Platform) (L : List MediaStreamConstraints) :
    ∀ (lastError : Option JsError) (s : State),
      (attemptLoop P L lastError s).1.stopped = s.stopped ∧
      ∃ new, (attemptLoop P L lastError s).1.requests = s.requests ++ new ∧
        ((streamsObtained P s.requests.length new = [] ∧
            (attemptLoop P L lastError s).1.stream = s.stream) ∨
         (∃ st, streamsObtained P s.requests.length new = [st] ∧
            (attemptLoop P L lastError s).1.stream = some st ∧
            ∃ l, (attemptLoop P L lastError s).2 = .ok l)) := by
  induction L with
  | nil =>
    intro lastError s
    exact ⟨rfl, [], by simp [attemptLoop], Or.inl ⟨rfl, rfl⟩⟩
  | cons c rest ih =>
    intro lastError s
    cases hg : P.getUserMedia s.requests.length c with
    | ok tracks =>
      have h : attemptLoop P (c :: rest) lastError s =
          ({ s with requests := s.requests ++ [c],
                    stream := some (mkStream s.requests.length tracks) }, .ok lastError) := by
        simp only [attemptLoop, hg]
      rw [h]
      exact ⟨rfl, [c], rfl, Or.inr ⟨_, by simp [streamsObtained, hg], rfl, _, rfl⟩⟩
    | error e =>
      by_cases hce : isConstraintError e = true
      · have h : attemptLoop P (c :: rest) lastError s =
            attemptLoop P rest (some e) { s with requests := s.requests ++ [c] } := by
          simp only [attemptLoop, hg, hce, if_true]
        rw [h]
        obtain ⟨h1, new, h2, h3⟩ := ih (some e) { s with requests := s.requests ++ [c] }
        refine ⟨h1, c :: new, by simpa using h2, ?_⟩
        simp only [List.length_append, List.length_singleton] at h3
        simp only [streamsObtained, hg, List.nil_append]
        exact h3
      · have h : attemptLoop P (c :: rest) lastError s =
            ({ s with requests := s.requests ++ [c] }, .error e) := by
          simp only [attemptLoop, hg, hce, if_false, Bool.false_eq_true]
        rw [h]
        exact ⟨rfl, [c], rfl, Or.inl ⟨by simp [streamsObtained, hg], rfl⟩⟩

theorem startCameraTry_outcome (P : Platform) (deviceId : Option String) (s : State) :
    (startCameraTry P deviceId s).1.stopped = s.stopped ++ heldIds s ∧
    ∃ new, (startCameraTry P deviceId s).1.requests = s.requests ++ new ∧
      ((streamsObtained P s.requests.length new = [] ∧
          (startCameraTry P deviceId s).1.stream = s.stream) ∨
       (∃ st, streamsObtained P s.requests.length new = [st] ∧
          (startCameraTry P deviceId s).1.stream = some st ∧
          ∀ e, (startCameraTry P deviceId s).2 = some e → isConstraintError e = false)) := by
  have hreq : (prepare P s).requests = s.requests := (prepare_frame P s).2.2.2.1
  have hstr : (prepare P s).stream = s.stream := (prepare_frame P s).1
  have hstop := prepare_stopped_held P s
  unfold startCameraTry
  cases hL : ladder P deviceId s with
  | error e =>
    exact ⟨hstop, [], by simp [hreq], Or.inl ⟨rfl, hstr⟩⟩
  | ok L =>
    simp only []
    obtain ⟨h1, new, h2, h3⟩ := attemptLoop_outcome P L none (prepare P s)
    rw [hreq] at h2 h3
    rw [hstop] at h1
    rw [hstr] at h3
    generalize attemptLoop P L none (prepare P s) = r at h1 h2 h3
    obtain ⟨s2, res⟩ := r
    simp only [] at h1 h2 h3
    cases res with
    | error e =>
      simp only []
      refine ⟨h1, new, h2, Or.inl ?_⟩
      rcases h3 with h3 | ⟨st, _, _, l, hl⟩
      · exact h3
      · cases hl
    | ok l =>
      simp only []
      rcases h3 with ⟨h3, h4⟩ | ⟨st, h3, h4, _⟩
      · cases hs2 : s2.stream with
        | none =>
          rw [afterLoop_none P l s2 hs2]
          exact ⟨h1, new, h2, Or.inl ⟨h3, h4⟩⟩
        | some st0 =>
          obtain ⟨hc, _⟩ := afterLoop_held P l s2 st0 hs2
          exact ⟨hc.2.1.trans h1, new, hc.2.2.1.trans h2, Or.inl ⟨h3, hc.1.trans h4⟩⟩
      · obtain ⟨hc, he⟩ := afterLoop_held P l s2 st h4
        exact ⟨hc.2.1.trans h1, new, hc.2.2.1.trans h2, Or.inr ⟨st, h3, hc.1.trans h4, he⟩⟩

/-- Every call of `startCamera` stops exactly the tracks of the stream held at its start;
of its stream requests at most one is accepted, and then its stream is the one held
afterwards; otherwise the stream held is the one held before. -/
theorem startCamera_outcome (P : Platform) (deviceId : Option String) (s : State) :
    (startCamera P deviceId s).stopped = s.stopped ++ heldIds s ∧
    ∃ new, StepOutcome P s (startCamera P deviceId s) new := by
  obtain ⟨h1, new, h2, h3⟩ := startCameraTry_outcome P deviceId s
  unfold startCamera
  generalize startCameraTry P deviceId s = r at h1 h2 h3
  obtain ⟨s1, thrown⟩ := r
  simp only [] at h1 h2 h3
  cases thrown with
  | none =>
    simp only []
    refine ⟨h1, new, h2, ?_⟩
    rcases h3 with h3 | ⟨st, h3, h4, _⟩
    · exact Or.inl h3
    · exact Or.inr ⟨st, h3, h4⟩
  | some e =>
    simp only []
    by_cases hce : isConstraintError e = true
    · rcases h3 with ⟨h3, h4⟩ | ⟨st, _, _, h5⟩
      · have hlen : s1.requests.length = s.requests.length + new.length := by
          rw [h2, List.length_append]
        have hob : streamsObtained P s.requests.length (new ++ [bareMinimum]) =
            streamsObtained P s1.requests.length [bareMinimum] := by
          rw [streamsObtained_append, h3, hlen]
          rfl
        unfold startCameraCatch
        simp only [hce, Bool.not_true, Bool.false_eq_true, if_false]
        cases hg : P.getUserMedia s1.requests.length bareMinimum with
        | error e1 =>
          simp only []
          refine ⟨h1, new ++ [bareMinimum], ?_, Or.inl ⟨?_, h4⟩⟩
          · show s1.requests ++ [bareMinimum] = _
            rw [h2, List.append_assoc]
          · rw [hob]
            simp [streamsObtained, hg]
        | ok tracks =>
          simp only []
          obtain ⟨hc, _⟩ := finishStart_core P
            { s1 with requests := s1.requests ++ [bareMinimum],
                      stream := some (mkStream s1.requests.length tracks),
                      srcObject := some (mkStream s1.requests.length tracks) }
          obtain ⟨c1, c2, c3⟩ := catchFinal_frame (finishStart P
            { s1 with requests := s1.requests ++ [bareMinimum],
                      stream := some (mkStream s1.requests.length tracks),
                      srcObject := some (mkStream s1.requests.length tracks) })
          refine ⟨(c2.trans hc.2.1).trans h1, new ++ [bareMinimum], ?_, Or.inr ⟨_, ?_, c1.trans hc.1⟩⟩
          · rw [c3.trans hc.2.2.1]
            show s1.requests ++ [bareMinimum] = _
            rw [h2, List.append_assoc]
          · rw [hob]
            simp [streamsObtained, hg]
      · rw [h5 e rfl] at hce
        cases hce
    · have hce1 : isConstraintError e = false := by simpa using hce
      rw [startCameraCatch_other P e s1 hce1]
      refine ⟨h1, new, h2, ?_⟩
      rcases h3 with h3 | ⟨st, h3, h4, _⟩
      · exact Or.inl h3
      · exact Or.inr ⟨st, h3, h4⟩

theorem heldIds_lt (P : Platform) (s : State) (hinv : StreamInv P s) :
    ∀ id ∈ heldIds s, id.1 < s.requests.length := by
  intro id hid
  unfold heldIds at hid
  cases hs : s.stream with
  | none => simp [hs] at hid
  | some st =>
    simp only [hs, MediaStream.getTracks, List.mem_map] at hid
    obtain ⟨t, ht, rfl⟩ := hid
    exact hinv.2.1 st hs t ht

theorem earlier_stopped (P : Platform) (deviceId : Option String) (s : State)
    (hinv : StreamInv P s) :
    ∀ st ∈ streamsObtained P 0 s.requests, ∀ t ∈ st.tracks,
      t.id ∈ (startCamera P deviceId s).stopped := by
  intro st hst t ht
  rw [(startCamera_outcome P deviceId s).1, List.mem_append]
  rcases hinv.2.2 st hst with h | h
  · right
    unfold heldIds
    simp only [h, MediaStream.getTracks, List.mem_map]
    exact ⟨t, ht, rfl⟩
  · exact Or.inl (h t ht)

theorem new_not_stopped (P : Platform) (deviceId : Option String) (s : State)
    (hinv : StreamInv P s) (new : List MediaStreamConstraints) :
    ∀ st ∈ streamsObtained P s.requests.length new, ∀ t ∈ st.tracks,
      t.id ∉ (startCamera P deviceId s).stopped := by
  intro st hst t ht hmem
  have hge := (streamsObtained_ids P new s.requests.length st hst t ht).1
  rw [(startCamera_outcome P deviceId s).1, List.mem_append] at hmem
  rcases hmem with h | h
  · have := hinv.1 _ h
    omega
  · have := heldIds_lt P s hinv _ h
    omega

theorem startCamera_inv (P : Platform) (deviceId : Option String) (s : State)
    (hinv : StreamInv P s) : StreamInv P (startCamera P deviceId s) := by
  obtain ⟨hstop, new, hreq, hout⟩ := startCamera_outcome P deviceId s
  have hlen : (startCamera P deviceId s).requests.length = s.requests.length + new.length := by
    rw [hreq, List.length_append]
  refine ⟨?_, ?_, ?_⟩
  · intro id hid
    rw [hstop, List.mem_append] at hid
    rcases hid with h | h
    · have := hinv.1 _ h
      omega
    · have := heldIds_lt P s hinv _ h
      omega
  · intro st hst t ht
    rcases hout with ⟨_, h⟩ | ⟨st1, h1, h2⟩
    · have := hinv.2.1 st (h ▸ hst) t ht
      omega
    · rw [h2] at hst
      cases hst
      have := (streamsObtained_ids P new s.requests.length st (by rw [h1]; simp) t ht).2
      omega
  · intro st hst
    rw [hreq, streamsObtained_append, List.mem_append, Nat.zero_add] at hst
    rcases hst with h | h
    · exact Or.inr (earlier_stopped P deviceId s hinv st h)
    · rcases hout with ⟨h1, _⟩ | ⟨st1, h1, h2⟩
      · rw [h1] at h
        simp at h
      · rw [h1, List.mem_singleton] at h
        subst h
        exact Or.inl h2

theorem startCameraCalls_inv (P : Platform) (calls : List (Option String)) :
    ∀ s, StreamInv P s → StreamInv P (startCameraCalls P calls s) := by
  induction calls with
  | nil => intro s h; exact h
  | cons d rest ih =>
    intro s h
    exact ih _ (startCamera_inv P d s h)

/-- Claim C6. Start from a state with no stream in which nothing has been requested or
stopped yet, make any number of consecutive `startCamera` calls (`calls`) and then one
more (with argument `deviceId`), the platform answering every request as it likes.  After
the last call: every track of every stream obtained by an earlier call has been stopped;
the last call obtained no stream or exactly one, which is then the stream held and has no
stopped track; and any two obtained streams that each still have an unstopped track are
the same stream. -/
theorem startCameraCalls_single_live (P : Platform) (calls : List (Option String))
    (deviceId : Option String) (s0 : State)
    (h0 : s0.stream = none ∧ s0.requests = [] ∧ s0.stopped = []) :
    (∀ st ∈ streamsObtained P 0 (startCameraCalls P calls s0).requests, ∀ t ∈ st.tracks,
      t.id ∈ (startCamera P deviceId (startCameraCalls P calls s0)).stopped) ∧
    (∃ new, (startCamera P deviceId (startCameraCalls P calls s0)).requests =
        (startCameraCalls P calls s0).requests ++ new ∧
      (streamsObtained P (startCameraCalls P calls s0).requests.length new = [] ∨
       ∃ st, streamsObtained P (startCameraCalls P calls s0).requests.length new = [st] ∧
         (startCamera P deviceId (startCameraCalls P calls s0)).stream = some st ∧
         ∀ t ∈ st.tracks,
           t.id ∉ (startCamera P deviceId (startCameraCalls P calls s0)).stopped)) ∧
    (∀ st1 ∈ streamsObtained P 0
        (startCamera P deviceId (startCameraCalls P calls s0)).requests,
      ∀ st2 ∈ streamsObtained P 0
        (startCamera P deviceId (startCameraCalls P calls s0)).requests,
      (∃ t ∈ st1.tracks,
        t.id ∉ (startCamera P deviceId (startCameraCalls P calls s0)).stopped) →
      (∃ t ∈ st2.tracks,
        t.id ∉ (startCamera P deviceId (startCameraCalls P calls s0)).stopped) →
      st1 = st2) := by
  have hinv0 : StreamInv P s0 := by
    obtain ⟨h1, h2, h3⟩ := h0
    refine ⟨?_, ?_, ?_⟩
    · intro id hid
      rw [h3] at hid
      cases hid
    · intro st hst
      rw [h1] at hst
      cases hst
    · intro st hst
      rw [h2] at hst
      simp [streamsObtained] at hst
  have hinv := startCameraCalls_inv P calls s0 hinv0
  generalize startCameraCalls P calls s0 = s at hinv ⊢
  obtain ⟨_, new, hreq, hout⟩ := startCamera_outcome P deviceId s
  have hold := earlier_stopped P deviceId s hinv
  have hnew := new_not_stopped P deviceId s hinv new
  have hsplit : ∀ st ∈ streamsObtained P 0 (startCamera P deviceId s).requests,
      (∃ t ∈ st.tracks, t.id ∉ (startCamera P deviceId s).stopped) →
      st ∈ streamsObtained P s.requests.length new := by
    intro st hst hlive
    rw [hreq, streamsObtained_append, List.mem_append, Nat.zero_add] at hst
    rcases hst with h | h
    · obtain ⟨t, ht, hns⟩ := hlive
      exact absurd (hold st h t ht) hns
    · exact h
  refine ⟨hold, ⟨new, hreq, ?_⟩, ?_⟩
  · rcases hout with ⟨h1, _⟩ | ⟨st, h1, h2⟩
    · exact Or.inl h1
    · exact Or.inr ⟨st, h1, h2, hnew st (by rw [h1]; simp)⟩
  · intro st1 hst1 st2 hst2 hl1 hl2
    have m1 := hsplit st1 hst1 hl1
    have m2 := hsplit st2 hst2 hl2
    rcases hout with ⟨h1, _⟩ | ⟨st, h1, _⟩
    · rw [h1] at m1
      simp at m1
    · rw [h1, List.mem_singleton] at m1 m2
      rw [m1, m2]

theorem startCameraCalls_single_live_witness :
    (∀ st ∈ streamsObtained samplePlatform 0
        (startCameraCalls samplePlatform [none, some "b"] State.initial).requests,
      ∀ t ∈ st.tracks,
        t.id ∈ (startCamera samplePlatform none
          (startCameraCalls samplePlatform [none, some "b"] State.initial)).stopped) ∧
    (startCamera samplePlatform none
      (startCameraCalls samplePlatform [none, some "b"] State.initial)).stopped =
        [(0, 0), (1, 0)] ∧
    (startCamera samplePlatform none
      (startCameraCalls samplePlatform [none, some "b"] State.initial)).stream =
        some (mkStream 2 [{ kind := "video", facingMode := some "user" }]) :=
  ⟨(startCameraCalls_single_live samplePlatform [none, some "b"] none State.initial
      ⟨rfl, rfl, rfl⟩).1, by decide, by decide⟩

/-! ## Mirroring and the camera index where the code is sound -/

/-- When the held stream's first video track reports `facingMode` `'environment'` and the
camera list is empty or the index lies within it, `updateVideoMirroring` sets the
transform to `scaleX(1)` (no mirror), whatever the labels and `currentFacingMode`. -/
theorem updateVideoMirroring_environment (P : Platform) (s : State) (st : MediaStream)
    (track : MediaStreamTrack) (rest : List MediaStreamTrack)
    (hs : s.stream = some st) (hv : st.getVideoTracks = track :: rest)
    (hf : track.facingMode = some "environment")
    (hidx : s.availableCameras = [] ∨ s.currentCameraIndex < s.availableCameras.length) :
    updateVideoMirroring P s = .ok { s with transform := "scaleX(1)" } := by
  have h1 : mirrorFromTrack s = false := by
    simp [mirrorFromTrack, hs, hv, hf]
  have h2 : mirrorFromLabel P s false = .ok false := by
    unfold mirrorFromLabel
    rcases hidx with h | h
    · simp [h]
    · have hpos : s.availableCameras.length > 0 := by omega
      simp [hpos, hs, List.getElem?_eq_getElem h, hv, hf, truthy]
  have h3 : mirrorFallback s false = false := by
    simp [mirrorFallback, hs, hv]
  simp [updateVideoMirroring, mirrorDecision, h1, h2, h3]

theorem updateVideoMirroring_environment_witness :
    updateVideoMirroring samplePlatform
        { State.initial with
            stream := some (mkStream 0 [{ kind := "video", facingMode := some "environment" }]),
            availableCameras :=
              [ { deviceId := "f", kind := "videoinput", label := "FRONT Camera" } ] } =
      .ok { State.initial with
            stream := some (mkStream 0 [{ kind := "video", facingMode := some "environment" }]),
            availableCameras :=
              [ { deviceId := "f", kind := "videoinput", label := "FRONT Camera" } ],
            transform := "scaleX(1)" } :=
  updateVideoMirroring_environment samplePlatform _ _ _ [] rfl rfl rfl (Or.inr (by decide))

/-- With no held stream, or a held stream without video track while no camera is listed,
`updateVideoMirroring` does not throw and mirrors exactly when `currentFacingMode` is
`'user'`. -/
theorem updateVideoMirroring_fallback (P : Platform) (s : State)
    (h : s.stream = none ∨
      ∃ st, s.stream = some st ∧ st.getVideoTracks = [] ∧ s.availableCameras = []) :
    mirrorDecision P s = .ok (decide (s.currentFacingMode = "user")) ∧
    updateVideoMirroring P s = .ok
      { s with transform := if s.currentFacingMode = "user" then "scaleX(-1)" else "scaleX(1)" } := by
  have hd : mirrorDecision P s = .ok (decide (s.currentFacingMode = "user")) := by
    rcases h with h | ⟨st, h1, h2, h3⟩
    · by_cases hl : s.availableCameras.length > 0 <;>
        simp [mirrorDecision, mirrorFromLabel, mirrorFallback, h, hl]
    · simp [mirrorDecision, mirrorFromLabel, mirrorFallback, h1, h2, h3]
  refine ⟨hd, ?_⟩
  unfold updateVideoMirroring
  rw [hd]
  by_cases hu : s.currentFacingMode = "user" <;> simp [hu]

theorem updateVideoMirroring_fallback_witness :
    mirrorDecision samplePlatform State.initial = .ok true :=
  (updateVideoMirroring_fallback samplePlatform State.initial (Or.inl rfl)).1

theorem attemptLoop_index (P : Platform) (L : List MediaStreamConstraints) :
    ∀ (lastError : Option JsError) (s : State),
      (attemptLoop P L lastError s).1.currentCameraIndex = s.currentCameraIndex := by
  induction L with
  | nil => intro lastError s; rfl
  | cons c rest ih =>
    intro lastError s
    simp only [attemptLoop]
    split
    · rfl
    · split_ifs
      · exact ih _ _
      · rfl

theorem afterLoop_index (P : Platform) (lastError : Option JsError) (s : State) :
    (afterLoop P lastError s).1.currentCameraIndex = s.currentCameraIndex := by
  cases hs : s.stream with
  | none => rw [afterLoop_none P lastError s hs]
  | some st => exact (afterLoop_held P lastError s st hs).1.2.2.2.2

theorem startCameraCatch_index (P : Platform) (e : JsError) (s : State) :
    (startCameraCatch P e s).currentCameraIndex = s.currentCameraIndex := by
  unfold startCameraCatch
  split_ifs
  · rfl
  · simp only []
    split
    · rename_i tracks _
      have h1 := (catchFinal_index (finishStart P
        { s with requests := s.requests ++ [bareMinimum],
                 stream := some (mkStream s.requests.length tracks),
                 srcObject := some (mkStream s.requests.length tracks) }))
      have h2 := (finishStart_core P
        { s with requests := s.requests ++ [bareMinimum],
                 stream := some (mkStream s.requests.length tracks),
                 srcObject := some (mkStream s.requests.length tracks) }).1.2.2.2.2
      exact h1.trans h2
    · rfl

/-- A call of `startCamera` never writes `currentCameraIndex`. -/
theorem startCamera_index (P : Platform) (deviceId : Option String) (s : State) :
    (startCamera P deviceId s).currentCameraIndex = s.currentCameraIndex := by
  have hp : (prepare P s).currentCameraIndex = s.currentCameraIndex := (prepare_frame P s).2.2.1
  have htry : (startCameraTry P deviceId s).1.currentCameraIndex = s.currentCameraIndex := by
    unfold startCameraTry
    split
    · exact hp
    · rename_i L _
      have hl := attemptLoop_index P L none (prepare P s)
      generalize attemptLoop P L none (prepare P s) = r at hl
      obtain ⟨s2, res⟩ := r
      cases res with
      | error e => exact hl.trans hp
      | ok l => exact ((afterLoop_index P l s2).trans hl).trans hp
  unfold startCamera
  generalize startCameraTry P deviceId s = r at htry
  obtain ⟨s1, thrown⟩ := r
  cases thrown with
  | none => exact htry
  | some e => exact (startCameraCatch_index P e s1).trans htry

/-- A switch click made while at least two cameras are listed leaves the index at
`(index + 1) mod length`, for the index and the list it found. -/
theorem switchCamera_index (P : Platform) (s : State) (hen : s.switchDisabled = false)
    (h2 : 2 ≤ s.availableCameras.length) :
    (switchCamera P s).currentCameraIndex =
      (s.currentCameraIndex + 1) % s.availableCameras.length := by
  have hlt : ¬ s.availableCameras.length < 2 := by omega
  have htry : (switchCameraTry P { s with switchDisabled := true }).1.currentCameraIndex =
      (s.currentCameraIndex + 1) % s.availableCameras.length := by
    unfold switchCameraTry
    simp only [hlt, if_false]
    split
    · rename_i s4 hu
      rw [(updateVideoMirroring_frame P _ _ hu).2.2.2.2.1, startCamera_index]
      cases s.stream <;> rfl
    · rw [startCamera_index]
      cases s.stream <;> rfl
  unfold switchCamera
  simp only [hen, Bool.false_eq_true, if_false]
  generalize switchCameraTry P { s with switchDisabled := true } = r at htry
  obtain ⟨s1, thrown⟩ := r
  cases thrown with
  | none => exact htry
  | some e => exact htry

theorem switchCamera_index_witness :
    (switchCamera samplePlatform (startCamera samplePlatform none State.initial)).currentCameraIndex
      = 1 :=
  (switchCamera_index samplePlatform (startCamera samplePlatform none State.initial)
    (by decide) (by decide)).trans (by decide)

/-! ## Concrete runs -/

/-- Claim C4, the code at the failing input. A second `startCamera()` is made while the
stream of the first is still held, and the platform rejects all four rungs with
`OverconstrainedError`.  The call stops the held stream's track and makes the four rung
requests, and then: no `{video: true, audio: false}` request is made, nothing is handed
to `handleCameraError`, the stopped stream is still the one held and is (re)bound to the
video element, and the page is marked camera-active with the status hidden. -/
theorem startCamera_stale_stream_no_fallback :
    heldStreamState.stream = some (mkStream 0 [{ kind := "video", facingMode := some "user" }]) ∧
    heldStreamState.requests.length = 1 ∧
    (startCamera onceOnlyPlatform none heldStreamState).requests.length = 5 ∧
    bareMinimum ∉ (startCamera onceOnlyPlatform none heldStreamState).requests ∧
    (startCamera onceOnlyPlatform none heldStreamState).reported = [] ∧
    (startCamera onceOnlyPlatform none heldStreamState).stream =
      some (mkStream 0 [{ kind := "video", facingMode := some "user" }]) ∧
    (startCamera onceOnlyPlatform none heldStreamState).srcObject =
      some (mkStream 0 [{ kind := "video", facingMode := some "user" }]) ∧
    (0, 0) ∈ (startCamera onceOnlyPlatform none heldStreamState).stopped ∧
    (startCamera onceOnlyPlatform none heldStreamState).cameraActive = true ∧
    (startCamera onceOnlyPlatform none heldStreamState).statusHidden = true := by
  decide

/-- Claim C10, the code at the failing input. From the initial state, `startCamera()` and
then one switch click on `unplugPlatform`: the first enumeration lists two cameras, the
switch moves the index to `(0 + 1) mod 2 = 1`, and the enumeration made again after the
stream was obtained lists one camera.  The state reached has a non-empty camera list of
length 1 and `currentCameraIndex = 1`, which is not a valid index, and the reads of
`availableCameras[currentCameraIndex]` that follow have thrown `TypeError`s. -/
theorem index_out_of_range_reachable :
    (startCamera unplugPlatform none State.initial).availableCameras.length = 2 ∧
    (startCamera unplugPlatform none State.initial).currentCameraIndex = 0 ∧
    staleIndexState.availableCameras =
      [ { deviceId := "b", kind := "videoinput", label := "Back Camera" } ] ∧
    staleIndexState.currentCameraIndex = 1 ∧
    ¬ (staleIndexState.currentCameraIndex < staleIndexState.availableCameras.length) ∧
    staleIndexState.reported.map (fun e => e.name) =
      ["NotReadableError", "TypeError", "TypeError"] := by
  decide

/-- Claim C7, the code at the failing input. In the state reached by `startCamera()` and
one switch click on `unplugPlatform`, the held stream's first video track reports
`facingMode` `'environment'`, the camera list has one entry and `currentCameraIndex` is 1.
There `updateVideoMirroring` throws a `TypeError` (the read of `camera.label` on
`undefined`) and decides nothing; the transform has never been set to `scaleX(1)`. -/
theorem updateVideoMirroring_environment_throws :
    staleIndexState.stream =
      some (mkStream 1 [{ kind := "video", facingMode := some "environment" }]) ∧
    (mkStream 1 [{ kind := "video", facingMode := some "environment" }]).getVideoTracks.head?.map
      (fun t => t.facingMode) = some (some "environment") ∧
    staleIndexState.availableCameras.length = 1 ∧
    staleIndexState.currentCameraIndex = 1 ∧
    updateVideoMirroring unplugPlatform staleIndexState =
      .error (typeError "Cannot read properties of undefined (reading 'label')") ∧
    mirrorDecision unplugPlatform staleIndexState =
      .error (typeError "Cannot read properties of undefined (reading 'label')") ∧
    staleIndexState.transform ≠ "scaleX(1)" := by
  refine ⟨by decide, by decide, by decide, by decide, by rfl, by rfl, by decide⟩

/-- Claim C8, the code at the failing input. With a held stream that has no video track, a
non-empty camera list, a valid index 0 and `currentFacingMode` `'user'`,
`updateVideoMirroring` throws a `TypeError` (the call of `getSettings()` on
`stream.getVideoTracks()[0]`, which is `undefined`, at line 274) before the fallback of
lines 282-285 is reached. -/
theorem updateVideoMirroring_no_video_track_throws :
    noVideoTrackState.stream.map (fun st => st.getVideoTracks) = some [] ∧
    noVideoTrackState.currentCameraIndex < noVideoTrackState.availableCameras.length ∧
    noVideoTrackState.currentFacingMode = "user" ∧
    updateVideoMirroring samplePlatform noVideoTrackState =
      .error (typeError "Cannot read properties of undefined (reading 'getSettings')") := by
  refine ⟨by decide, by decide, by decide, by rfl⟩

end Below
